import Mathlib

/-!
Shallow embedding of the OrderTogether application (FastAPI/Python) in Lean 4.

Datetimes are modelled as `Int` minutes (naive wall-clock values); strings are
Lean `String`s; Python `dict` session state and SQLAlchemy rows become Lean
structures; HTTP endpoints become total functions returning either an
`HTTPError` (for `raise HTTPException`) together with the unchanged state, or
the updated state.  Python's `None` becomes `Option.none`.
-/

namespace OrderTogether

/-- Identity dict as produced by `get_identity` / `set_oidc_identity` /
`set_token_identity` in `app/auth.py`: `type` is `"anon"`, `"oidc"` or
`"token"`; `id` is the session's `identity_id`; `name` the display name. -/
structure Identity where
  type : String
  id : String
  name : String
deriving DecidableEq, Repr

/-- Row of the `orders` table (`app/models.py`, class `Order`).
`deadline` is the naive-UTC datetime stored in the DB, in minutes.
`creator_identifier` is the nullable OIDC `sub` of the creator. -/
structure Order where
  id : String
  admin_token : String
  vendor_name : String
  vendor_url : String
  deadline : Int
  creator_name : String
  creator_identifier : Option String
  invite_only : Bool
  allow_oidc : Bool
  privacy_mode : Bool
deriving DecidableEq, Repr

/-- Row of the `order_items` table (`app/models.py`, class `OrderItem`).
`quantity` is stored as a string, exactly as in the schema. -/
structure OrderItem where
  id : String
  order_id : String
  person_identifier : String
  person_name : String
  product_name : String
  product_sku : Option String
  product_url : Option String
  quantity : String
  note : Option String
deriving DecidableEq, Repr

/-- Starlette session dict, restricted to the keys the embedded code reads:
`admin_orders` (list of order ids granted admin), and the identity triple.
A key absent from the dict is `none`. -/
structure Session where
  admin_orders : List String
  identity_type : Option String
  identity_id : Option String
  identity_name : Option String
deriving DecidableEq, Repr

/-- `HTTPException(status_code=..., detail=...)`. -/
structure HTTPError where
  status_code : Nat
  detail : String
deriving DecidableEq, Repr

/-- Python truthiness of an `Optional[str]`: `None` and `""` are falsy. -/
def truthyOptStr : Option String → Bool
  | none => false
  | some s => s ≠ ""

/-- `app/auth.py`, `set_order_admin`: append the order id to the session's
`admin_orders` list unless already present. -/
def set_order_admin (s : Session) (order_id : String) : Session :=
  let admin_orders := s.admin_orders
  { s with
    admin_orders :=
      if admin_orders.contains order_id then admin_orders
      else admin_orders ++ [order_id] }

/-- `app/auth.py`, `is_order_admin`: admin iff the order id is in the
session's `admin_orders`, or the session identity is OIDC and its id equals
the order's (truthy) `creator_identifier`. -/
def is_order_admin (s : Session) (o : Order) : Bool :=
  if s.admin_orders.contains o.id then true
  else if s.identity_type == some "oidc" && truthyOptStr o.creator_identifier
      && s.identity_id == o.creator_identifier then true
  else false

/-- `app/auth.py`, `can_add_item`.  `oidc_enabled` is not read here; the
function depends only on the identity, the order and `is_admin`. -/
def can_add_item (identity : Identity) (o : Order) (is_admin : Bool) : Bool :=
  if is_admin then true
  else if o.invite_only then
    if identity.type == "token" then true
    else if identity.type == "oidc" && o.allow_oidc then true
    else false
  else true

/-- `app/auth.py`, `can_edit_item`.  `oidc_enabled` embeds the module-level
`OIDC_ENABLED` flag (env-derived). -/
def can_edit_item (oidc_enabled : Bool) (identity : Identity) (item : OrderItem)
    (o : Order) (is_admin : Bool) : Bool :=
  if is_admin then true
  else if identity.type == "anon" && !oidc_enabled && !o.invite_only then true
  else identity.id == item.person_identifier

/-- `app/auth.py`, `can_see_item`. -/
def can_see_item (identity : Identity) (item : OrderItem) (o : Order)
    (is_admin : Bool) : Bool :=
  if !o.privacy_mode then true
  else if is_admin then true
  else identity.id == item.person_identifier

/-!
Timezone model.  `app/config.py` sets `LOCAL_TZ = ZoneInfo(TIMEZONE)` with
`TIMEZONE` defaulting to `"Europe/Berlin"`.  The deadline pipeline in
`app/routers/orders.py` is
`datetime.fromisoformat(deadline).replace(tzinfo=LOCAL_TZ)` followed by
`.astimezone(timezone.utc).replace(tzinfo=None)`; the display direction in
`app/main.py` (`_localtime_filter`) attaches UTC and calls
`.astimezone(LOCAL_TZ)`.  We model a zone by one DST transition (a UTC
instant at which the UTC offset changes), which covers the neighbourhood of
any single transition of a real tzdata zone; a fixed-offset zone is the case
`before = after`.  `datetime.replace(tzinfo=...)` leaves `fold = 0`, so by
PEP 495 a local time in the spring-forward gap (and an ambiguous fall-back
time) resolves to the offset in force before the transition.  Offsets and
naive datetimes are in minutes.
-/

/-- One UTC-offset transition: at UTC instant `utc` the zone's offset changes
from `before` minutes to `after` minutes. -/
structure DSTTransition where
  utc : Int
  before : Int
  after : Int
deriving DecidableEq, Repr

/-- `ZoneInfo.utcoffset` on a naive local datetime with `fold = 0` (PEP 495):
the pre-transition offset applies to every local wall-clock value below the
first unambiguous post-transition wall-clock value `utc + max before after`. -/
def utcoffsetLocalFold0 (t : DSTTransition) (l : Int) : Int :=
  if l < t.utc + max t.before t.after then t.before else t.after

/-- `dt_local.astimezone(timezone.utc).replace(tzinfo=None)` on a naive local
value `l` tagged with the zone: subtract the fold-0 offset. -/
def localToUTC (t : DSTTransition) (l : Int) : Int :=
  l - utcoffsetLocalFold0 t l

/-- The zone's offset at a UTC instant (used by `astimezone(LOCAL_TZ)`). -/
def utcoffsetAtUTC (t : DSTTransition) (u : Int) : Int :=
  if u < t.utc then t.before else t.after

/-- `app/main.py`, `_localtime_filter`: attach UTC to the stored naive value
and convert to the configured zone. -/
def utcToLocal (t : DSTTransition) (u : Int) : Int :=
  u + utcoffsetAtUTC t u

/-- A local wall-clock value skipped by a spring-forward transition: such
values exist only when the offset increases, and span
`[utc + before, utc + after)`. -/
def inGap (t : DSTTransition) (l : Int) : Prop :=
  t.before < t.after ∧ t.utc + t.before ≤ l ∧ l < t.utc + t.after

instance (t : DSTTransition) (l : Int) : Decidable (inGap t l) := by
  unfold inGap; infer_instance

/-- Europe/Berlin spring-forward of 2026-03-29: at 01:00 UTC (minute 125340
counted from 2026-01-01 00:00) the offset changes from +60 (CET) to +120
(CEST). -/
def berlinSpring2026 : DSTTransition := ⟨125340, 60, 120⟩

/-!
`app/routers/orders.py`.  The async DB is modelled as a `List Order`; route
handlers become total functions.  A handler that can raise returns the error
together with the session it leaves behind (Starlette persists the session
dict even when an `HTTPException` is raised later in the handler, and all
raises below happen before any session write).
-/

/-- `_get_order` (`app/routers/orders.py`): look the order up by id, raising
404 `"Order not found"` when absent. -/
def getOrderById (orders : List Order) (order_id : String) :
    Except HTTPError Order :=
  match orders.find? (fun o => o.id == order_id) with
  | none => .error ⟨404, "Order not found"⟩
  | some o => .ok o

/-- `create_order` (`app/routers/orders.py`).  `deadline` is the result of
`datetime.fromisoformat` on the form string: `none` models the `ValueError`
branch (400), `some l` the parsed naive local value.  `new_id` and
`new_admin_token` stand for the two `uuid4()` calls.  The stored flags force
`allow_oidc` and `privacy_mode` to `False` unless `invite_only`. -/
def create_order (tz : DSTTransition) (identity : Identity)
    (vendor_name vendor_url : String) (deadline : Option Int)
    (invite_only allow_oidc privacy_mode : Bool)
    (new_id new_admin_token : String) : Except HTTPError Order :=
  match deadline with
  | none => .error ⟨400, "Invalid deadline format"⟩
  | some dt_local =>
      .ok
        { id := new_id
          admin_token := new_admin_token
          vendor_name := vendor_name
          vendor_url := vendor_url
          deadline := localToUTC tz dt_local
          creator_name := if identity.name == "" then "Admin" else identity.name
          creator_identifier :=
            if identity.type == "oidc" then some identity.id else none
          invite_only := invite_only
          allow_oidc := allow_oidc && invite_only
          privacy_mode := privacy_mode && invite_only }

/-- `enter_admin` (`app/routers/orders.py`): fetch the order (404 when
missing), compare the admin token (403 on mismatch), and only then grant
admin in the session.  Returns the error (if any) with the resulting
session. -/
def enter_admin (orders : List Order) (session : Session)
    (order_id admin_token : String) : Option HTTPError × Session :=
  match getOrderById orders order_id with
  | .error e => (some e, session)
  | .ok order =>
      if order.admin_token != admin_token then
        (some ⟨403, "Invalid admin token"⟩, session)
      else
        (none, set_order_admin session order_id)

/-- `update_settings` (`app/routers/orders.py`): admin-only; rewrites
`allow_oidc` to `allow_oidc and order.invite_only` and commits.  Returns the
updated order row. -/
def update_settings (orders : List Order) (session : Session)
    (order_id : String) (allow_oidc : Bool) : Except HTTPError Order :=
  match getOrderById orders order_id with
  | .error e => .error e
  | .ok order =>
      if !is_order_admin session order then
        .error ⟨403, "Only the admin can change settings"⟩
      else
        .ok { order with allow_oidc := allow_oidc && order.invite_only }

/-!
`app/routers/items.py`.  The three mutating handlers share the same guard
sequence; each is modelled on the list of the order's items and returns the
optional raised error together with the item list after the request (the
list is unchanged whenever an error is raised, since every raise precedes
the DB write).  `now` stands for `datetime.utcnow()`, `identity` for
`get_identity(request)`, and `is_admin` for `is_order_admin(request, order)`.
-/

/-- The item form fields common to `add_item` and `edit_item`; empty string
models an omitted optional field (FastAPI's `Form("")` default). -/
structure ItemForm where
  person_name : String
  product_name : String
  quantity : String
  product_sku : String
  product_url : String
  note : String
deriving DecidableEq, Repr

/-- Python `s or default` on strings: the default wins iff `s` is empty. -/
def strOr (s default : String) : String :=
  if s == "" then default else s

/-- Python `s or None` on a form string. -/
def strOrNone (s : String) : Option String :=
  if s == "" then none else some s

/-- `add_item` (`app/routers/items.py`): invite check (403), deadline check
(403 `"Order is closed"` unless admin), then insert.  Token identities get
their fixed display name regardless of the submitted `person_name`.
`new_id` stands for the `uuid4()` call.  (The anonymous-user branch also
stores the chosen name into the session; that write does not affect the
stored item and is omitted here.) -/
def add_item (now : Int) (order : Order)
    (items : List OrderItem) (identity : Identity) (is_admin : Bool)
    (form : ItemForm) (new_id : String) : Option HTTPError × List OrderItem :=
  if !can_add_item identity order is_admin then
    (some ⟨403, "This order is invite-only. Use your invite link to participate."⟩,
      items)
  else if now > order.deadline && !is_admin then
    (some ⟨403, "Order is closed"⟩, items)
  else
    let person_name :=
      if identity.type == "token" then identity.name else form.person_name
    let item : OrderItem :=
      { id := new_id
        order_id := order.id
        person_identifier := identity.id
        person_name := person_name
        product_name := form.product_name
        product_sku := strOrNone form.product_sku
        product_url := strOrNone form.product_url
        quantity := strOr form.quantity "1"
        note := strOrNone form.note }
    (none, items ++ [item])

/-- The `select(OrderItem).where(id == item_id, order_id == order_id)`
lookup shared by `edit_item` and `delete_item`. -/
def findItem (items : List OrderItem) (order_id item_id : String) :
    Option OrderItem :=
  items.find? (fun i => i.id == item_id && i.order_id == order_id)

/-- `edit_item` (`app/routers/items.py`): 404 when the item is missing, 403
when `can_edit_item` denies, 403 `"Order is closed"` past the deadline
unless admin; otherwise overwrite the item's fields (token identities keep
their fixed display name). -/
def edit_item (oidc_enabled : Bool) (now : Int) (order : Order)
    (items : List OrderItem) (identity : Identity) (is_admin : Bool)
    (item_id : String) (form : ItemForm) : Option HTTPError × List OrderItem :=
  match findItem items order.id item_id with
  | none => (some ⟨404, "Item not found"⟩, items)
  | some item =>
      if !can_edit_item oidc_enabled identity item order is_admin then
        (some ⟨403, "Not allowed to edit this item"⟩, items)
      else if now > order.deadline && !is_admin then
        (some ⟨403, "Order is closed"⟩, items)
      else
        let item' : OrderItem :=
          { item with
            person_name :=
              if identity.type == "token" then identity.name
              else form.person_name
            product_name := form.product_name
            quantity := strOr form.quantity "1"
            product_sku := strOrNone form.product_sku
            product_url := strOrNone form.product_url
            note := strOrNone form.note }
        (none,
          items.map (fun i =>
            if i.id == item_id && i.order_id == order.id then item' else i))

/-- `delete_item` (`app/routers/items.py`): same guards as `edit_item`, then
remove the row. -/
def delete_item (oidc_enabled : Bool) (now : Int) (order : Order)
    (items : List OrderItem) (identity : Identity) (is_admin : Bool)
    (item_id : String) : Option HTTPError × List OrderItem :=
  match findItem items order.id item_id with
  | none => (some ⟨404, "Item not found"⟩, items)
  | some item =>
      if !can_edit_item oidc_enabled identity item order is_admin then
        (some ⟨403, "Not allowed to delete this item"⟩, items)
      else if now > order.deadline && !is_admin then
        (some ⟨403, "Order is closed"⟩, items)
      else
        (none,
          items.filter (fun i =>
            !(i.id == item_id && i.order_id == order.id)))

/-!
`app/ws.py`.  WebSocket connections are opaque handles (`WS := Nat`).  The
manager's `defaultdict(str, set[WebSocket])` is modelled as a total function
from order id to subscriber list (absent key = `[]`; `del` of an emptied key
is unobservable through `get(order_id, [])` and so needs no extra state).
The success or failure of `await ws.send_text(...)` is modelled by a
predicate `ok : WS → Bool`; the `try/except` around the send makes
`broadcast` total, returning the list of send attempts `(ws, payload)` in
iteration order together with the manager state after pruning. -/

abbrev WS := Nat

/-- `ConnectionManager._subs`. -/
structure ConnectionManager where
  subs : String → List WS

/-- `ConnectionManager.subscribe`: `self._subs[order_id].add(ws)`. -/
def subscribe (m : ConnectionManager) (order_id : String) (ws : WS) :
    ConnectionManager :=
  ⟨fun o =>
    if o == order_id then
      if (m.subs o).contains ws then m.subs o else m.subs o ++ [ws]
    else m.subs o⟩

/-- `ConnectionManager.unsubscribe`: `self._subs[order_id].discard(ws)`
(and drop the key when emptied, which the function model makes implicit). -/
def unsubscribe (m : ConnectionManager) (order_id : String) (ws : WS) :
    ConnectionManager :=
  ⟨fun o =>
    if o == order_id then (m.subs o).filter (fun w => w ≠ ws)
    else m.subs o⟩

/-- `json.dumps(\x7b"type": "update", "deadline": deadline\x7d)` with
Python's default separators. -/
def updatePayload (deadline : Option String) : String :=
  "\x7b\"type\": \"update\", \"deadline\": " ++
    (match deadline with
     | none => "null"
     | some d => "\"" ++ d ++ "\"") ++ "\x7d"

/-- `ConnectionManager.broadcast`: send the payload to every subscriber of
the order (collecting each attempt), gather the connections whose send
raised into `dead`, then unsubscribe exactly those. -/
def broadcast (ok : WS → Bool) (m : ConnectionManager) (order_id : String)
    (deadline : Option String) : List (WS × String) × ConnectionManager :=
  let payload := updatePayload deadline
  let targets := m.subs order_id
  let dead := targets.filter (fun ws => !ok ws)
  (targets.map (fun ws => (ws, payload)),
    dead.foldl (fun mm ws => unsubscribe mm order_id ws) m)

/-!
`app/export.py`, product-grouped aggregation.  Python's dynamically typed
`total_quantity` (an `int` until the first unparsable quantity, a `str`
afterwards) becomes `PyVal`.  `int(s)` raising `ValueError` becomes
`pyInt s = none`; the uncaught `TypeError` that `str + int` raises is the
`.error` result of the aggregation.
-/

/-- A Python value that is either an `int` or a `str`. -/
inductive PyVal where
  | int (n : Int)
  | str (s : String)
deriving DecidableEq, Repr

/-- Python `str()` of a `PyVal`. -/
def pyValStr : PyVal → String
  | .int n => toString n
  | .str s => s

/-- Whitespace stripped by Python's `int(str)` conversion. -/
def isPySpace (c : Char) : Bool :=
  c == ' ' || c == '\t' || c == '\n' || c == '\r'

/-- Digits of a non-empty decimal literal, most significant first. -/
def parseDigits : List Char → Option Nat
  | [] => none
  | cs =>
      cs.foldl
        (fun acc c =>
          match acc with
          | none => none
          | some a => if c.isDigit then some (a * 10 + (c.toNat - 48)) else none)
        (some 0)

/-- Python `int(s)`: optional surrounding whitespace, optional sign, then
decimal digits; `none` models the `ValueError`. -/
def pyInt (s : String) : Option Int :=
  let cs := ((s.data.dropWhile isPySpace).reverse.dropWhile isPySpace).reverse
  match cs with
  | '+' :: rest => (parseDigits rest).map (fun n => (n : Int))
  | '-' :: rest => (parseDigits rest).map (fun n => -(n : Int))
  | _ => (parseDigits cs).map (fun n => (n : Int))

/-- One `total_quantity` update from `export_csv`'s product branch:
`aggregated[key]["total_quantity"] += int(item.quantity)` guarded by
`except ValueError`, whose handler replaces the total by
`str(total) + f"+\x7bquantity\x7d"`.  When `int(quantity)` succeeds but the
running total has already degraded to a `str`, the addition raises an
uncaught `TypeError`, which is the `.error` case. -/
def addQuantity (total : PyVal) (quantity : String) : Except String PyVal :=
  match pyInt quantity with
  | none => .ok (.str (pyValStr total ++ "+" ++ quantity))
  | some n =>
      match total with
      | .int t => .ok (.int (t + n))
      | .str _ => .error "TypeError: can only concatenate str (not \"int\") to str"

/-- The grouping key of the product branch: product name, SKU, URL and note
(each `or ""`). -/
structure GroupKey where
  product : String
  sku : String
  url : String
  note : String
deriving DecidableEq, Repr

/-- Key of one item, with Python's `x or ""` on the optional fields. -/
def itemKey (i : OrderItem) : GroupKey :=
  ⟨i.product_name, i.product_sku.getD "", i.product_url.getD "",
    i.note.getD ""⟩

/-- The `aggregated` dict as an insertion-ordered association list. -/
def lookupGroup (agg : List (GroupKey × PyVal)) (k : GroupKey) : Option PyVal :=
  (agg.find? (fun p => p.1 == k)).map (fun p => p.2)

/-- Store a total under a key, preserving dict insertion order. -/
def storeGroup (agg : List (GroupKey × PyVal)) (k : GroupKey) (v : PyVal) :
    List (GroupKey × PyVal) :=
  if (agg.find? (fun p => p.1 == k)).isSome then
    agg.map (fun p => if p.1 == k then (p.1, v) else p)
  else
    agg ++ [(k, v)]

/-- One iteration of the `for item in items` aggregation loop: initialise
the group's total to `0` when the key is new, then apply the guarded
`+= int(item.quantity)`. -/
def aggregateStep (agg : List (GroupKey × PyVal)) (i : OrderItem) :
    Except String (List (GroupKey × PyVal)) :=
  let k := itemKey i
  let total := (lookupGroup agg k).getD (.int 0)
  match addQuantity total i.quantity with
  | .error e => .error e
  | .ok v => .ok (storeGroup agg k v)

/-- The whole product-grouped `total_quantity` aggregation of `export_csv`:
fold the loop body over the items; an uncaught `TypeError` aborts the
export. -/
def aggregateProducts (items : List OrderItem) :
    Except String (List (GroupKey × PyVal)) :=
  items.foldlM aggregateStep []

/-!  Theorems about the embedded program. -/

/-- C4: `can_add_item` is true iff the caller is admin, or the order is
invite-only and the identity is a token (invite) identity or an OIDC
(external) identity on an order with `allow_oidc`, or the order is not
invite-only (in which case every identity may add). -/
theorem claim_c4_can_add_item (identity : Identity) (o : Order)
    (is_admin : Bool) :
    can_add_item identity o is_admin = true ↔
      is_admin = true ∨
        (o.invite_only = true ∧
          (identity.type = "token" ∨
            (identity.type = "oidc" ∧ o.allow_oidc = true))) ∨
        o.invite_only = false := by
  cases is_admin <;> cases hio : o.invite_only <;>
    cases hao : o.allow_oidc <;>
      simp [can_add_item, hio, hao]

/-- C1 counterexample: with external auth disabled (`oidc_enabled = false`),
a non-invite-only order, and `is_admin = false`, a *token* identity whose id
differs from the item's contributor key is denied by `can_edit_item`,
although the claim promises fully-open editing for every identity kind. -/
theorem claim_c1_counterexample :
    can_edit_item false (Identity.mk "token" "a" "N")
      (OrderItem.mk "i1" "o1" "b" "B" "Pizza" none none "1" none)
      (Order.mk "o1" "t" "V" "U" 100 "C" none false false false) false
      = false := by decide

/-- C1 amended: with external auth disabled, a non-invite-only order and a
non-admin caller, `can_edit_item` is fully open only for identities of kind
`anon`; any other identity may edit exactly its own items (id equal to the
item's contributor key). -/
theorem claim_c1_open_edit_anon_only (identity : Identity) (item : OrderItem)
    (o : Order) (h : o.invite_only = false) :
    can_edit_item false identity item o false
      = (identity.type == "anon" || identity.id == item.person_identifier) := by
  cases ha : identity.type == "anon" <;>
    simp [can_edit_item, h, ha]

/-- C1 witness: the amended statement evaluated for an anonymous identity on
a concrete non-invite-only order. -/
theorem claim_c1_witness :
    can_edit_item false (Identity.mk "anon" "x" "")
      (OrderItem.mk "i1" "o1" "b" "B" "Pizza" none none "1" none)
      (Order.mk "o1" "t" "V" "U" 100 "C" none false false false) false
      = ((Identity.mk "anon" "x" "").type == "anon"
          || (Identity.mk "anon" "x" "").id
            == (OrderItem.mk "i1" "o1" "b" "B" "Pizza" none none "1" none).person_identifier) :=
  claim_c1_open_edit_anon_only (Identity.mk "anon" "x" "")
    (OrderItem.mk "i1" "o1" "b" "B" "Pizza" none none "1" none)
    (Order.mk "o1" "t" "V" "U" 100 "C" none false false false) rfl

/-- C6 counterexample: the code requires the order's `creator_identifier` to
be *truthy*; a session whose OIDC identity id is the empty string and an
order whose creator identifier is the empty string satisfy the claim's
conditions (kind external, keys equal, no admin grant) yet
`is_order_admin` returns `false`. -/
theorem claim_c6_counterexample :
    (Session.mk [] (some "oidc") (some "") none).identity_type = some "oidc" ∧
    (Session.mk [] (some "oidc") (some "") none).identity_id
      = (Order.mk "o1" "t" "V" "U" 0 "C" (some "") false false false).creator_identifier ∧
    (Order.mk "o1" "t" "V" "U" 0 "C" (some "") false false false).id
      ∉ (Session.mk [] (some "oidc") (some "") none).admin_orders ∧
    is_order_admin (Session.mk [] (some "oidc") (some "") none)
      (Order.mk "o1" "t" "V" "U" 0 "C" (some "") false false false) = false := by
  decide

/-- C6 amended: `is_order_admin` is true exactly when the order id is in the
session's admin-granted list, or the session identity is OIDC and the
order's creator identifier is present, non-empty, and equal to the session's
identity id.  In particular a brand-new session carrying the creator's
(non-empty) OIDC key is admin with no admin-secret visit. -/
theorem claim_c6_is_order_admin_iff (s : Session) (o : Order) :
    is_order_admin s o = true ↔
      o.id ∈ s.admin_orders ∨
        (s.identity_type = some "oidc" ∧
          ∃ k, o.creator_identifier = some k ∧ k ≠ "" ∧
            s.identity_id = some k) := by
  have heq : is_order_admin s o =
      (s.admin_orders.contains o.id ||
        (s.identity_type == some "oidc" && truthyOptStr o.creator_identifier
          && s.identity_id == o.creator_identifier)) := by
    unfold is_order_admin
    cases h1 : s.admin_orders.contains o.id <;>
      cases h2 : s.identity_type == some "oidc"
          && truthyOptStr o.creator_identifier
          && s.identity_id == o.creator_identifier <;>
        simp [h1, h2]
  rw [heq]
  rcases hc : o.creator_identifier with _ | c <;>
    simp [truthyOptStr, hc, List.elem_iff]
  tauto

/-- C2 counterexample: the two failure modes of the admin grant are *not*
identical in shape: a missing order fails with 404 `"Order not found"`, a
wrong secret on an existing order fails with 403 `"Invalid admin token"`,
so a caller can distinguish them (order existence leaks). -/
theorem claim_c2_counterexample :
    (enter_admin [] (Session.mk [] none none none) "o1" "x").1
      = some (HTTPError.mk 404 "Order not found") ∧
    (enter_admin [Order.mk "o1" "secret" "V" "U" 0 "C" none false false false]
        (Session.mk [] none none none) "o1" "x").1
      = some (HTTPError.mk 403 "Invalid admin token") ∧
    (404 : Nat) ≠ 403 := by
  refine ⟨rfl, rfl, by decide⟩

/-- C2 amended: whenever the admin grant fails, the session is left exactly
as it was (no order id is added to its admin-granted list); the failure is
403 `"Invalid admin token"` when an order with the id exists (and then its
secret really differs), and 404 `"Order not found"` when none exists — two
distinguishable shapes. -/
theorem claim_c2_failure_modes (orders : List Order) (s : Session)
    (oid tok : String) (e : HTTPError)
    (h : (enter_admin orders s oid tok).1 = some e) :
    (enter_admin orders s oid tok).2 = s ∧
    (∀ o, orders.find? (fun x => x.id == oid) = some o →
      e = HTTPError.mk 403 "Invalid admin token" ∧ o.admin_token ≠ tok) ∧
    (orders.find? (fun x => x.id == oid) = none →
      e = HTTPError.mk 404 "Order not found") := by
  unfold enter_admin getOrderById at h ⊢
  rcases hf : orders.find? (fun x => x.id == oid) with _ | o
  · rw [hf] at h ⊢
    simp only [Option.some.injEq] at h
    subst h
    refine ⟨rfl, ?_, ?_⟩
    · intro o ho
      simp at ho
    · intro _
      rfl
  · rw [hf] at h ⊢
    by_cases ht : o.admin_token = tok
    · simp [ht] at h
    · have hb : (o.admin_token != tok) = true := by
        simp [bne_iff_ne, ht]
      simp only [hb, if_true, Option.some.injEq] at h
      subst h
      refine ⟨by simp [hb], ?_, ?_⟩
      · intro o' ho'
        simp only [Option.some.injEq] at ho'
        subst ho'
        exact ⟨rfl, ht⟩
      · intro hnone
        simp at hnone

/-- C2 witness: the wrong-secret failure on a concrete one-order database,
with the session provably untouched and the error equal to the 403 shape. -/
theorem claim_c2_witness :
    (enter_admin [Order.mk "o1" "secret" "V" "U" 0 "C" none false false false]
        (Session.mk [] none none none) "o1" "x").2
      = Session.mk [] none none none ∧
    (∀ o, [Order.mk "o1" "secret" "V" "U" 0 "C" none false false false].find?
          (fun x => x.id == "o1") = some o →
      HTTPError.mk 403 "Invalid admin token"
          = HTTPError.mk 403 "Invalid admin token" ∧ o.admin_token ≠ "x") ∧
    ([Order.mk "o1" "secret" "V" "U" 0 "C" none false false false].find?
          (fun x => x.id == "o1") = none →
      HTTPError.mk 403 "Invalid admin token"
          = HTTPError.mk 404 "Order not found") :=
  claim_c2_failure_modes
    [Order.mk "o1" "secret" "V" "U" 0 "C" none false false false]
    (Session.mk [] none none none) "o1" "x"
    (HTTPError.mk 403 "Invalid admin token") rfl

/-- The flag invariant of C5: a non-invite-only order stores `allow_oidc`
(the spec's `allow_external_without_invite`) and `privacy_mode` as false. -/
def orderFlagsInv (o : Order) : Prop :=
  o.invite_only = false → o.allow_oidc = false ∧ o.privacy_mode = false

/-- C5: orders written through `create_order` always satisfy the flag
invariant (both flags are and-ed with `invite_only`), and `update_settings`
preserves it on any database of orders that satisfies it. -/
theorem claim_c5_flags_invariant :
    (∀ (tz : DSTTransition) (identity : Identity) (vn vu : String)
        (dl : Option Int) (io ao pm : Bool) (nid ntok : String) (o : Order),
      create_order tz identity vn vu dl io ao pm nid ntok = Except.ok o →
      orderFlagsInv o) ∧
    (∀ (orders : List Order) (s : Session) (oid : String) (ao : Bool)
        (o : Order),
      (∀ x ∈ orders, orderFlagsInv x) →
      update_settings orders s oid ao = Except.ok o →
      orderFlagsInv o) := by
  constructor
  · intro tz identity vn vu dl io ao pm nid ntok o h
    cases dl with
    | none => cases h
    | some l =>
        simp only [create_order, Except.ok.injEq] at h
        subst h
        intro hio
        simp only at hio
        subst hio
        exact ⟨by simp, by simp⟩
  · intro orders s oid ao o hinv h
    unfold update_settings getOrderById at h
    rcases hf : orders.find? (fun x => x.id == oid) with _ | x
    · rw [hf] at h; cases h
    · rw [hf] at h
      by_cases hadm : is_order_admin s x = true
      · simp only [hadm, Bool.not_true, Bool.false_eq_true, if_false,
          Except.ok.injEq] at h
        subst h
        intro hio
        simp only at hio
        have hx := hinv x (List.mem_of_find?_eq_some hf) hio
        exact ⟨by simp [hio], hx.2⟩
      · simp only [Bool.not_eq_true] at hadm
        simp [hadm] at h

/-- C5 witness: a concrete creation requesting `allow_oidc = true` and
`privacy_mode = true` on a non-invite-only order yields stored flags false,
and a concrete settings update preserves the invariant. -/
theorem claim_c5_witness :
    orderFlagsInv
      (Order.mk "n" "a" "V" "U" 100 "Admin" none false false false) ∧
    orderFlagsInv
      (Order.mk "o1" "t" "V" "U" 0 "C" none false false false) :=
  ⟨claim_c5_flags_invariant.1 (DSTTransition.mk 0 0 0)
      (Identity.mk "anon" "u" "") "V" "U" (some 100) false true true "n" "a"
      (Order.mk "n" "a" "V" "U" 100 "Admin" none false false false) rfl,
    claim_c5_flags_invariant.2
      [Order.mk "o1" "t" "V" "U" 0 "C" none false false false]
      (Session.mk ["o1"] none none none) "o1" true
      (Order.mk "o1" "t" "V" "U" 0 "C" none false false false)
      (by
        intro x hx
        simp only [List.mem_singleton] at hx
        subst hx
        intro _
        exact ⟨rfl, rfl⟩)
      rfl⟩

/-- C3: once `now` is strictly past the order's deadline, every mutating
item operation by a non-admin fails with a 403 error and leaves the item
list untouched (for edit and delete, whenever the addressed item exists);
an admin caller is never blocked — add always succeeds, and edit and delete
succeed on any existing item. -/
theorem claim_c3_deadline_gate (oe : Bool) (now : Int) (o : Order)
    (items : List OrderItem) (identity : Identity) (form : ItemForm)
    (nid iid : String) :
    (now > o.deadline →
      ((∃ e, (add_item now o items identity false form nid).1 = some e ∧
          e.status_code = 403) ∧
        (add_item now o items identity false form nid).2 = items) ∧
      (findItem items o.id iid ≠ none →
        ((∃ e, (edit_item oe now o items identity false iid form).1 = some e ∧
            e.status_code = 403) ∧
          (edit_item oe now o items identity false iid form).2 = items) ∧
        ((∃ e, (delete_item oe now o items identity false iid).1 = some e ∧
            e.status_code = 403) ∧
          (delete_item oe now o items identity false iid).2 = items))) ∧
    ((add_item now o items identity true form nid).1 = none ∧
      (findItem items o.id iid ≠ none →
        (edit_item oe now o items identity true iid form).1 = none ∧
        (delete_item oe now o items identity true iid).1 = none)) := by
  have hdl : ∀ h : now > o.deadline, (decide (now > o.deadline) && !false) = true := by
    intro h
    simp [h]
  constructor
  · intro hnow
    constructor
    · unfold add_item
      by_cases hca : can_add_item identity o false = true
      · simp only [hca, Bool.not_true, Bool.false_eq_true, if_false,
          hdl hnow, if_true]
        exact ⟨⟨_, rfl, rfl⟩, trivial⟩
      · simp only [Bool.not_eq_true] at hca
        simp only [hca, Bool.not_false, if_true]
        exact ⟨⟨_, rfl, rfl⟩, trivial⟩
    · intro hfind
      rcases hf : findItem items o.id iid with _ | item
      · exact absurd hf hfind
      constructor
      · unfold edit_item
        rw [hf]
        by_cases hce : can_edit_item oe identity item o false = true
        · simp only [hce, Bool.not_true, Bool.false_eq_true, if_false,
            hdl hnow, if_true]
          exact ⟨⟨_, rfl, rfl⟩, trivial⟩
        · simp only [Bool.not_eq_true] at hce
          simp only [hce, Bool.not_false, if_true]
          exact ⟨⟨_, rfl, rfl⟩, trivial⟩
      · unfold delete_item
        rw [hf]
        by_cases hce : can_edit_item oe identity item o false = true
        · simp only [hce, Bool.not_true, Bool.false_eq_true, if_false,
            hdl hnow, if_true]
          exact ⟨⟨_, rfl, rfl⟩, trivial⟩
        · simp only [Bool.not_eq_true] at hce
          simp only [hce, Bool.not_false, if_true]
          exact ⟨⟨_, rfl, rfl⟩, trivial⟩
  · constructor
    · unfold add_item
      simp [can_add_item]
    · intro hfind
      rcases hf : findItem items o.id iid with _ | item
      · exact absurd hf hfind
      constructor
      · unfold edit_item
        rw [hf]
        simp [can_edit_item]
      · unfold delete_item
        rw [hf]
        simp [can_edit_item]

/-- C3 witness: on a concrete order whose deadline (minute 100) is past
(`now = 200`), a non-admin edit is rejected leaving the single item in
place, and an admin delete of the same item is not blocked. -/
theorem claim_c3_witness :
    (edit_item false 200 (Order.mk "o1" "t" "V" "U" 100 "C" none false false false)
        [OrderItem.mk "i1" "o1" "p" "B" "Pizza" none none "1" none]
        (Identity.mk "anon" "p" "") false "i1"
        (ItemForm.mk "B" "Pasta" "2" "" "" "")).2
      = [OrderItem.mk "i1" "o1" "p" "B" "Pizza" none none "1" none] ∧
    (delete_item false 200 (Order.mk "o1" "t" "V" "U" 100 "C" none false false false)
        [OrderItem.mk "i1" "o1" "p" "B" "Pizza" none none "1" none]
        (Identity.mk "anon" "p" "") true "i1").1 = none :=
  ⟨((claim_c3_deadline_gate false 200
        (Order.mk "o1" "t" "V" "U" 100 "C" none false false false)
        [OrderItem.mk "i1" "o1" "p" "B" "Pizza" none none "1" none]
        (Identity.mk "anon" "p" "") (ItemForm.mk "B" "Pasta" "2" "" "" "")
        "n2" "i1").1 (by decide)).2 (by decide) |>.1.2,
    ((claim_c3_deadline_gate false 200
        (Order.mk "o1" "t" "V" "U" 100 "C" none false false false)
        [OrderItem.mk "i1" "o1" "p" "B" "Pizza" none none "1" none]
        (Identity.mk "anon" "p" "") (ItemForm.mk "B" "Pasta" "2" "" "" "")
        "n2" "i1").2.2 (by decide)).2⟩

/-- C10: for an identity of kind token, `add_item` and `edit_item` are
insensitive to the submitted `person_name` (replacing it by any other value
gives the same result), and any item the operations store that was not
already present carries the token's fixed display name. -/
theorem claim_c10_token_name (oe : Bool) (now : Int) (o : Order)
    (items : List OrderItem) (identity : Identity) (adm : Bool)
    (form : ItemForm) (nid iid q : String)
    (h : identity.type = "token") :
    (add_item now o items identity adm form nid
      = add_item now o items identity adm
          { form with person_name := q } nid) ∧
    (∀ i ∈ (add_item now o items identity adm form nid).2,
      i ∈ items ∨ i.person_name = identity.name) ∧
    (edit_item oe now o items identity adm iid form
      = edit_item oe now o items identity adm iid
          { form with person_name := q }) ∧
    (∀ i ∈ (edit_item oe now o items identity adm iid form).2,
      i ∈ items ∨ i.person_name = identity.name) := by
  have ht : (identity.type == "token") = true := by simp [h]
  refine ⟨?_, ?_, ?_, ?_⟩
  · unfold add_item
    simp only [ht, if_true]
  · intro i hi
    unfold add_item at hi
    split at hi
    · exact Or.inl hi
    · split at hi
      · exact Or.inl hi
      · simp only [ht, if_true, List.mem_append, List.mem_singleton] at hi
        rcases hi with hi | hi
        · exact Or.inl hi
        · subst hi
          exact Or.inr rfl
  · unfold edit_item
    cases findItem items o.id iid <;> simp only [ht, if_true]
  · intro i hi
    unfold edit_item at hi
    rcases hf : findItem items o.id iid with _ | item <;> rw [hf] at hi
    · exact Or.inl hi
    · simp only [ht, if_true] at hi
      split at hi
      · exact Or.inl hi
      · split at hi
        · exact Or.inl hi
        · simp only [List.mem_map] at hi
          obtain ⟨j, hj, hji⟩ := hi
          by_cases hmatch : (j.id == iid && j.order_id == o.id) = true
          · rw [if_pos hmatch] at hji
            subst hji
            exact Or.inr rfl
          · rw [if_neg hmatch] at hji
            subst hji
            exact Or.inl hj

/-- C10 witness: a token identity named "Alice" adding an item with a form
that claims the name "Mallory" produces the same result as any other
submitted name. -/
theorem claim_c10_witness :
    add_item 0 (Order.mk "o1" "t" "V" "U" 100 "C" none false false false) []
        (Identity.mk "token" "tk" "Alice") false
        (ItemForm.mk "Mallory" "Pizza" "1" "" "" "") "n1"
      = add_item 0 (Order.mk "o1" "t" "V" "U" 100 "C" none false false false) []
          (Identity.mk "token" "tk" "Alice") false
          (ItemForm.mk "Bob" "Pizza" "1" "" "" "") "n1" :=
  (claim_c10_token_name false 0
      (Order.mk "o1" "t" "V" "U" 100 "C" none false false false) []
      (Identity.mk "token" "tk" "Alice") false
      (ItemForm.mk "Mallory" "Pizza" "1" "" "" "") "n1" "i1" "Bob" rfl).1

/-- Pruning a list of dead connections one by one from an order's channel
removes exactly those connections from that channel and nothing else. -/
theorem subs_foldl_unsubscribe (dead : List WS) (m : ConnectionManager)
    (oid o : String) :
    ((dead.foldl (fun mm ws => unsubscribe mm oid ws) m).subs o)
      = if o = oid then (m.subs o).filter (fun w => !dead.contains w)
        else m.subs o := by
  induction dead generalizing m with
  | nil =>
      by_cases ho : o = oid <;> simp [ho]
  | cons d ds ih =>
      rw [List.foldl_cons, ih]
      by_cases ho : o = oid
      · subst ho
        rw [if_pos rfl, if_pos rfl]
        have hu : (unsubscribe m o d).subs o
            = (m.subs o).filter (fun w => w ≠ d) := by
          simp [unsubscribe]
        rw [hu, List.filter_filter]
        apply List.filter_congr
        intro w _
        rw [show ((d :: ds).contains w) = (w == d || ds.contains w) from rfl]
        by_cases hwd : w = d
        · subst hwd
          simp
        · simp [hwd]
      · rw [if_neg ho, if_neg ho]
        have hu : (unsubscribe m oid d).subs o = m.subs o := by
          simp [unsubscribe, ho]
        rw [hu]

/-- C7: `broadcast` attempts a send of the (single, shared) update payload —
`null` deadline or the supplied hint — to every connection subscribed to the
order at call time, in subscription order; it prunes exactly the connections
whose send failed, leaves every other order's subscribers untouched, and a
subsequent broadcast for the same order addresses exactly the surviving
connections.  (Sends that raise are absorbed: the function is total and
returns normally to its caller.) -/
theorem claim_c7_broadcast (m : ConnectionManager) (ok : WS → Bool)
    (oid : String) :
    ((broadcast ok m oid none).1
      = (m.subs oid).map
          (fun ws => (ws, "\x7b\"type\": \"update\", \"deadline\": null\x7d"))) ∧
    (∀ d, (broadcast ok m oid d).1
      = (m.subs oid).map (fun ws => (ws, updatePayload d))) ∧
    ((broadcast ok m oid none).2.subs oid = (m.subs oid).filter ok) ∧
    (∀ o, o ≠ oid → (broadcast ok m oid none).2.subs o = m.subs o) ∧
    (∀ (ok2 : WS → Bool) d,
      (broadcast ok2 (broadcast ok m oid none).2 oid d).1
        = ((m.subs oid).filter ok).map (fun ws => (ws, updatePayload d))) := by
  have hsubs : (broadcast ok m oid none).2.subs oid
      = (m.subs oid).filter ok := by
    unfold broadcast
    rw [subs_foldl_unsubscribe, if_pos rfl]
    apply List.filter_congr
    intro w hw
    cases hok : ok w
    · simp [List.elem_eq_mem, List.mem_filter, hw, hok]
    · simp [List.elem_eq_mem, List.mem_filter, hok]
  refine ⟨rfl, fun _ => rfl, hsubs, ?_, ?_⟩
  · intro o ho
    unfold broadcast
    rw [subs_foldl_unsubscribe, if_neg ho]
  · intro ok2 d
    show ((broadcast ok m oid none).2.subs oid).map
        (fun ws => (ws, updatePayload d)) = _
    rw [hsubs]

/-- C7 witness: with connections 1, 2, 3 subscribed to order "X" and
connection 2's send failing, the subscribers of an unrelated order "Y" are
untouched by the broadcast. -/
theorem claim_c7_witness :
    (broadcast (fun w => w ≠ 2)
        (ConnectionManager.mk (fun o => if o == "X" then [1, 2, 3] else []))
        "X" none).2.subs "Y"
      = (ConnectionManager.mk
          (fun o => if o == "X" then [1, 2, 3] else [])).subs "Y" :=
  ((claim_c7_broadcast
      (ConnectionManager.mk (fun o => if o == "X" then [1, 2, 3] else []))
      (fun w => w ≠ 2) "X").2.2.2.1) "Y" (by decide)

/-- C8: the product-grouped aggregation *does* raise.  Two items of the same
group whose quantities are `"x"` (unparsable, degrading the total to the
string `"0+x"`) and then `"2"` (parsable) make the loop execute
`str += int`, an uncaught `TypeError` that aborts the export — contradicting
the claim that only a degraded string-concatenation aggregation can
result. -/
theorem claim_c8_export_typeerror :
    aggregateProducts
      [OrderItem.mk "i1" "o1" "p1" "Alice" "Widget" none none "x" none,
       OrderItem.mk "i2" "o1" "p2" "Bob" "Widget" none none "2" none]
      = Except.error "TypeError: can only concatenate str (not \"int\") to str"
    ∧
    aggregateProducts
      [OrderItem.mk "i1" "o1" "p1" "Alice" "Widget" none none "x" none,
       OrderItem.mk "i2" "o1" "p2" "Bob" "Widget" none none "y" none]
      = Except.ok [(GroupKey.mk "Widget" "" "" "", PyVal.str "0+x+y")] := by
  constructor <;> rfl

/-- Round-trip of the timezone conversion pair: any local wall-clock value
that is not inside a spring-forward gap is reproduced exactly by storing it
as UTC and converting the stored instant back. -/
theorem localRoundTrip (t : DSTTransition) (l : Int) (hg : ¬ inGap t l) :
    utcToLocal t (localToUTC t l) = l := by
  unfold inGap at hg
  push_neg at hg
  unfold utcToLocal localToUTC utcoffsetAtUTC utcoffsetLocalFold0
  rcases le_total t.before t.after with hba | hba
  · rw [max_eq_right hba]
    split_ifs <;> omega
  · rw [max_eq_left hba]
    split_ifs <;> omega

/-- C9 counterexample: creating an order with the gap-time deadline
2026-03-29 02:30 Europe/Berlin (minute 125430; the clocks jump from 02:00 to
03:00 that night) stores UTC minute 125370, which converts back to local
minute 125490 (03:30) — not the submitted local time. -/
theorem claim_c9_counterexample :
    create_order berlinSpring2026 (Identity.mk "anon" "u" "") "V" "U"
        (some 125430) false false false "n" "a"
      = Except.ok
          (Order.mk "n" "a" "V" "U" 125370 "Admin" none false false false) ∧
    utcToLocal berlinSpring2026 125370 = 125490 ∧
    (125490 : Int) ≠ 125430 := by
  refine ⟨rfl, rfl, by decide⟩

/-- C9 amended: for every order created from a parsed local deadline that
exists in the configured zone (is not skipped by a spring-forward
transition), converting the stored naive-UTC deadline back through the zone
reproduces the submitted local wall-clock value exactly. -/
theorem claim_c9_roundtrip_no_gap (tz : DSTTransition) (identity : Identity)
    (vn vu : String) (l : Int) (io ao pm : Bool) (nid ntok : String)
    (o : Order)
    (h : create_order tz identity vn vu (some l) io ao pm nid ntok
      = Except.ok o)
    (hg : ¬ inGap tz l) :
    utcToLocal tz o.deadline = l := by
  have hdl : o.deadline = localToUTC tz l := by
    simp only [create_order, Except.ok.injEq] at h
    subst h
    rfl
  rw [hdl]
  exact localRoundTrip tz l hg

/-- C9 witness: the deadline 2026-03-28 20:00 Europe/Berlin (minute 125040,
not in any gap) is stored as UTC minute 124980 and converts back to exactly
125040. -/
theorem claim_c9_witness :
    utcToLocal berlinSpring2026
        (Order.mk "n" "a" "V" "U" 124980 "Admin" none false false false).deadline
      = 125040 :=
  claim_c9_roundtrip_no_gap berlinSpring2026 (Identity.mk "anon" "u" "")
    "V" "U" 125040 false false false "n" "a"
    (Order.mk "n" "a" "V" "U" 124980 "Admin" none false false false)
    rfl (by decide)

end OrderTogether
